import Mathlib

/-!
Shallow embedding of the git-status polling hook
`src/features/git/hooks/useGitStatus.ts` of CodexMonitor.

The hook owns four pieces of mutable state: the displayed status (the
`status` React state cell), the monotonically increasing request counter
`requestIdRef`, the currently tracked workspace id `workspaceIdRef`, and the
per-workspace cache `cachedStatusRef` (a `Map<string, GitStatusState>`,
modelled as an association list with in-place update).

Each handler of the source (the synchronous part of `refresh`, the promise
`.then` and `.catch` handlers, and the workspace-change effect) becomes a
pure function on that state.  JavaScript reference equality (`===` on
objects) is modelled as value equality; an `undefined`-able string is an
`Option String`, and JS truthiness of such a value is "defined and
non-empty".
-/

/-- One changed file as reported by the status source (`GitFileStatus` from
`types`): path, change kind, added and deleted line counts. -/
structure GitFileStatus where
  path : String
  status : String
  additions : Nat
  deletions : Nat
deriving DecidableEq

/-- The displayed/cached snapshot type `GitStatusState` (useGitStatus.ts
lines 5-13).  `error` is `string | null`, hence `Option String`. -/
structure GitStatusState where
  branchName : String
  files : List GitFileStatus
  stagedFiles : List GitFileStatus
  unstagedFiles : List GitFileStatus
  totalAdditions : Nat
  totalDeletions : Nat
  error : Option String
deriving DecidableEq

/-- `emptyStatus` (lines 15-23): the all-empty default snapshot. -/
def emptyStatus : GitStatusState :=
  { branchName := ""
    files := []
    stagedFiles := []
    unstagedFiles := []
    totalAdditions := 0
    totalDeletions := 0
    error := none }

/-- `sameFileStatusLists` (lines 27-47): element-wise comparison of two file
lists on `path`, `status`, `additions`, `deletions`.  The source first
short-circuits on reference equality `a === b` and on a length mismatch;
under value semantics the recursion below is that same predicate. -/
def sameFileStatusLists : List GitFileStatus → List GitFileStatus → Bool
  | [], [] => true
  | left :: ls, right :: rs =>
      (left.path == right.path
        && left.status == right.status
        && left.additions == right.additions
        && left.deletions == right.deletions)
      && sameFileStatusLists ls rs
  | _, _ => false

/-- `sameStatusState` (lines 49-59): the render-suppression equality on
snapshots. -/
def sameStatusState (a b : GitStatusState) : Bool :=
  a.branchName == b.branchName
  && a.error == b.error
  && a.totalAdditions == b.totalAdditions
  && a.totalDeletions == b.totalDeletions
  && sameFileStatusLists a.files b.files
  && sameFileStatusLists a.stagedFiles b.stagedFiles
  && sameFileStatusLists a.unstagedFiles b.unstagedFiles

/-- The raw payload resolved by `getGitStatus` (spec section 6): like a
snapshot but with an optional branch name and no `error` field. -/
structure RawStatus where
  branchName : Option String
  files : List GitFileStatus
  stagedFiles : List GitFileStatus
  unstagedFiles : List GitFileStatus
  totalAdditions : Nat
  totalDeletions : Nat
deriving DecidableEq

/-- JS `String.prototype.trim`: drop whitespace from both ends of the
string.  Embedded structurally over the character list so that it reduces on
concrete inputs. -/
def trimString (s : String) : String :=
  String.mk (((s.data.dropWhile Char.isWhitespace).reverse.dropWhile Char.isWhitespace).reverse)

/-- `resolveBranchName` (lines 68-80).  `incoming?.trim()` is `undefined`
when `incoming` is; `if (trimmed && trimmed !== "unknown")` tests JS
truthiness (defined and non-empty) and the sentinel; the fallback is the
trimmed cached branch when that is truthy and not the sentinel, else
`trimmed ?? ""`. -/
def resolveBranchName (incoming : Option String) (cached : Option GitStatusState) : String :=
  let trimmed := incoming.map trimString
  if (trimmed.map (fun t => t != "" && t != "unknown")).getD false then
    trimmed.getD ""
  else
    let cachedBranch := cached.map (fun c => trimString c.branchName)
    if (cachedBranch.map (fun t => t != "" && t != "unknown")).getD false then
      cachedBranch.getD ""
    else
      trimmed.getD ""

/-- `cachedStatusRef.current.get`: lookup in the per-workspace cache map. -/
def cacheGet : List (String × GitStatusState) → String → Option GitStatusState
  | [], _ => none
  | (k, v) :: rest, key => if k = key then some v else cacheGet rest key

/-- `cachedStatusRef.current.set`: in-place update of the entry for a key,
insertion when absent. -/
def cacheSet : List (String × GitStatusState) → String → GitStatusState →
    List (String × GitStatusState)
  | [], key, value => [(key, value)]
  | (k, v) :: rest, key, value =>
      if k = key then (key, value) :: rest else (k, v) :: cacheSet rest key value

/-- The mutable state of one `useGitStatus` instance: the `status` state
cell, `requestIdRef.current`, `workspaceIdRef.current` and
`cachedStatusRef.current`. -/
structure HookState where
  status : GitStatusState
  requestId : Nat
  workspaceIdRef : Option String
  cache : List (String × GitStatusState)
deriving DecidableEq

/-- The functional updater passed to `setStatus` on both fetch paths
(lines 104 and 120): keep the previous object when the new one is
`sameStatusState`-equal to it. -/
def nextDisplayed (prev next : GitStatusState) : GitStatusState :=
  if sameStatusState prev next then prev else next

/-- The snapshot built on the success path (lines 97-103): the spread of the
raw data with the branch name resolved against the cached entry and `error`
set to null. -/
def successSnapshot (data : RawStatus) (cached : Option GitStatusState) : GitStatusState :=
  { branchName := resolveBranchName data.branchName cached
    files := data.files
    stagedFiles := data.stagedFiles
    unstagedFiles := data.unstagedFiles
    totalAdditions := data.totalAdditions
    totalDeletions := data.totalDeletions
    error := none }

/-- The snapshot built on the failure path (lines 116-119): the cached entry
with `error` set to the message when a cached entry exists, else the empty
default with `branchName = "unknown"` and the message. -/
def failureSnapshot (message : String) (cached : Option GitStatusState) : GitStatusState :=
  match cached with
  | some c => { c with error := some message }
  | none => { emptyStatus with branchName := "unknown", error := some message }

/-- The synchronous prefix of `refresh` (lines 82-89): with no active
workspace the displayed status is reset to the empty default and no request
is issued; otherwise the request counter is bumped and a request tagged with
the new counter value and the target workspace id is issued. -/
def refreshStart (workspaceId : Option String) (s : HookState) :
    HookState × Option (Nat × String) :=
  match workspaceId with
  | none => ({ s with status := emptyStatus }, none)
  | some wid =>
      let requestId := s.requestId + 1
      ({ s with requestId := requestId }, some (requestId, wid))

/-- The `.then` handler of `refresh` (lines 90-106): drop the response when
its request id is no longer the latest issued or its workspace is no longer
the tracked one; otherwise display (subject to `nextDisplayed` suppression)
and cache the success snapshot. -/
def applySuccess (requestId : Nat) (workspaceId : String) (data : RawStatus)
    (s : HookState) : HookState :=
  if s.requestId ≠ requestId ∨ s.workspaceIdRef ≠ some workspaceId then s
  else
    let nextStatus := successSnapshot data (cacheGet s.cache workspaceId)
    { s with
      status := nextDisplayed s.status nextStatus
      cache := cacheSet s.cache workspaceId nextStatus }

/-- The `.catch` handler of `refresh` (lines 107-121): same staleness check,
then display (subject to suppression) the failure snapshot; the cache is not
written. -/
def applyFailure (requestId : Nat) (workspaceId : String) (message : String)
    (s : HookState) : HookState :=
  if s.requestId ≠ requestId ∨ s.workspaceIdRef ≠ some workspaceId then s
  else
    { s with
      status := nextDisplayed s.status (failureSnapshot message (cacheGet s.cache workspaceId)) }

/-- Resolution of one fetch: the two handlers cover every outcome of the
promise, so handling is a total function of the outcome. -/
def applyOutcome (requestId : Nat) (workspaceId : String)
    (outcome : Except String RawStatus) (s : HookState) : HookState :=
  match outcome with
  | Except.ok data => applySuccess requestId workspaceId data s
  | Except.error message => applyFailure requestId workspaceId message s

/-- The workspace-change effect (lines 124-135): on a genuine transition the
tracked id is replaced, the request counter bumped (invalidating in-flight
responses), and the displayed status synchronously replaced with the new
workspace's cached snapshot or the empty default (the empty default when the
new workspace is null). -/
def handleWorkspaceChange (workspaceId : Option String) (s : HookState) : HookState :=
  if s.workspaceIdRef = workspaceId then s
  else
    let s1 : HookState :=
      { s with workspaceIdRef := workspaceId, requestId := s.requestId + 1 }
    match workspaceId with
    | none => { s1 with status := emptyStatus }
    | some wid => { s1 with status := (cacheGet s1.cache wid).getD emptyStatus }

/-- A concrete changed file, used to instantiate the claim theorems (the
example of spec section 8, property 6). -/
def fileSample : GitFileStatus :=
  { path := "a.ts", status := "modified", additions := 3, deletions := 1 }

/-- A concrete cached snapshot holding `fileSample`. -/
def cachedSample : GitStatusState :=
  { branchName := "main"
    files := [fileSample]
    stagedFiles := []
    unstagedFiles := [fileSample]
    totalAdditions := 3
    totalDeletions := 1
    error := none }

/-- A concrete hook state tracking workspace w with `cachedSample` cached
for it. -/
def stateSample : HookState :=
  { status := emptyStatus
    requestId := 2
    workspaceIdRef := some "w"
    cache := [("w", cachedSample)] }

/-- A concrete raw fetch payload whose branch name carries surrounding
whitespace. -/
def rawSample : RawStatus :=
  { branchName := some " main "
    files := [fileSample]
    stagedFiles := []
    unstagedFiles := [fileSample]
    totalAdditions := 3
    totalDeletions := 1 }

/-! Helper lemmas shared by the claim theorems. -/

theorem sameFileStatusLists_iff (a b : List GitFileStatus) :
    sameFileStatusLists a b = true ↔ a = b := by
  induction a generalizing b with
  | nil => cases b <;> simp [sameFileStatusLists]
  | cons x xs ih =>
      cases b with
      | nil => simp [sameFileStatusLists]
      | cons y ys =>
          cases x
          cases y
          simp [sameFileStatusLists, ih, GitFileStatus.mk.injEq, Bool.and_eq_true,
            beq_iff_eq, and_assoc]

theorem sameStatusState_iff (a b : GitStatusState) :
    sameStatusState a b = true ↔ a = b := by
  cases a
  cases b
  simp [sameStatusState, sameFileStatusLists_iff, GitStatusState.mk.injEq,
    Bool.and_eq_true, beq_iff_eq]
  tauto

/-- The suppression updater is value-transparent: the displayed value after
an update is always the incoming snapshot (when the previous one is kept, it
is equal to it). -/
theorem nextDisplayed_eq (prev next : GitStatusState) : nextDisplayed prev next = next := by
  unfold nextDisplayed
  split
  · exact (sameStatusState_iff prev next).mp (by assumption)
  · rfl

theorem cacheGet_cacheSet (m : List (String × GitStatusState)) (k key : String)
    (v : GitStatusState) :
    cacheGet (cacheSet m key v) k = if key = k then some v else cacheGet m k := by
  induction m with
  | nil => simp [cacheSet, cacheGet]
  | cons p rest ih =>
      obtain ⟨pk, pv⟩ := p
      by_cases h : pk = key
      · subst h
        simp only [cacheSet, if_pos rfl, cacheGet]
        by_cases hk : pk = k <;> simp [hk]
      · simp only [cacheSet, if_neg h, cacheGet, ih]
        by_cases hk : pk = k
        · subst hk
          have hke : ¬(key = pk) := fun hh => h hh.symm
          simp [hke]
        · simp [hk]

/-- A mismatched success response is a no-op on the whole state. -/
theorem applySuccess_stale (requestId : Nat) (workspaceId : String) (data : RawStatus)
    (s : HookState) (h : s.requestId ≠ requestId ∨ s.workspaceIdRef ≠ some workspaceId) :
    applySuccess requestId workspaceId data s = s := by
  unfold applySuccess
  exact if_pos h

/-- A mismatched failure response is a no-op on the whole state. -/
theorem applyFailure_stale (requestId : Nat) (workspaceId : String) (message : String)
    (s : HookState) (h : s.requestId ≠ requestId ∨ s.workspaceIdRef ≠ some workspaceId) :
    applyFailure requestId workspaceId message s = s := by
  unfold applyFailure
  exact if_pos h

/-! Claim theorems. -/

/-- C1: a fetch response — success or failure — is applied to the displayed
status and to the cache only if its request id still equals the latest
issued request number and its target workspace still equals the tracked
active workspace; a response failing either check leaves the entire state
(displayed status and every cache entry) unchanged. -/
theorem claim_C1_stale_responses_discarded
    (s : HookState) (requestId : Nat) (workspaceId : String)
    (data : RawStatus) (message : String)
    (h : s.requestId ≠ requestId ∨ s.workspaceIdRef ≠ some workspaceId) :
    applySuccess requestId workspaceId data s = s
      ∧ applyFailure requestId workspaceId message s = s :=
  ⟨applySuccess_stale requestId workspaceId data s h,
   applyFailure_stale requestId workspaceId message s h⟩

/-- Witness for C1 at a concrete stale response (request 4 after request 5
was issued). -/
theorem claim_C1_stale_responses_discarded_witness :
    applySuccess 4 "b" ⟨some "main", [], [], [], 0, 0⟩
        (⟨emptyStatus, 5, some "b", []⟩ : HookState)
        = (⟨emptyStatus, 5, some "b", []⟩ : HookState)
      ∧ applyFailure 4 "b" "boom" (⟨emptyStatus, 5, some "b", []⟩ : HookState)
        = (⟨emptyStatus, 5, some "b", []⟩ : HookState) :=
  claim_C1_stale_responses_discarded _ 4 "b" _ "boom" (Or.inl (by decide))

/-- C2: on a genuine transition of the active workspace the displayed status
is synchronously replaced with the new workspace's cached snapshot when one
exists and the empty default otherwise (the empty default when the new
workspace is null), and afterwards every response still addressed to a
different workspace is discarded without any state change, so the old
workspace's snapshot is never shown while the new one is active. -/
theorem claim_C2_switch_replaces_displayed
    (s : HookState) (b : Option String) (h : s.workspaceIdRef ≠ b) :
    (handleWorkspaceChange b s).status
        = (match b with
           | some w => (cacheGet s.cache w).getD emptyStatus
           | none => emptyStatus)
      ∧ ∀ (requestId : Nat) (a : String) (data : RawStatus) (message : String),
          some a ≠ b →
            applySuccess requestId a data (handleWorkspaceChange b s)
                = handleWorkspaceChange b s
              ∧ applyFailure requestId a message (handleWorkspaceChange b s)
                = handleWorkspaceChange b s := by
  have hw : (handleWorkspaceChange b s).workspaceIdRef = b := by
    cases b <;> simp [handleWorkspaceChange, h]
  constructor
  · cases b <;> simp [handleWorkspaceChange, h]
  · intro requestId a data message hab
    have hmis : (handleWorkspaceChange b s).workspaceIdRef ≠ some a := by
      rw [hw]
      exact fun hh => hab hh.symm
    exact ⟨applySuccess_stale _ _ _ _ (Or.inr hmis),
           applyFailure_stale _ _ _ _ (Or.inr hmis)⟩

/-- Witness for C2: switching from workspace a to workspace b with a cached
entry for b redisplays that entry, and a late response for a is dropped. -/
theorem claim_C2_switch_replaces_displayed_witness :
    (handleWorkspaceChange (some "b")
        (⟨emptyStatus, 3, some "a", [("b", { emptyStatus with branchName := "dev" })]⟩
          : HookState)).status
        = (match some "b" with
           | some w => (cacheGet [("b", { emptyStatus with branchName := "dev" })] w).getD
               emptyStatus
           | none => emptyStatus)
      ∧ ∀ (requestId : Nat) (a : String) (data : RawStatus) (message : String),
          some a ≠ some "b" →
            applySuccess requestId a data
                (handleWorkspaceChange (some "b")
                  (⟨emptyStatus, 3, some "a",
                    [("b", { emptyStatus with branchName := "dev" })]⟩ : HookState))
                = handleWorkspaceChange (some "b")
                  (⟨emptyStatus, 3, some "a",
                    [("b", { emptyStatus with branchName := "dev" })]⟩ : HookState)
              ∧ applyFailure requestId a message
                  (handleWorkspaceChange (some "b")
                    (⟨emptyStatus, 3, some "a",
                      [("b", { emptyStatus with branchName := "dev" })]⟩ : HookState))
                  = handleWorkspaceChange (some "b")
                    (⟨emptyStatus, 3, some "a",
                      [("b", { emptyStatus with branchName := "dev" })]⟩ : HookState) :=
  claim_C2_switch_replaces_displayed _ (some "b") (by decide)

/-- C4 as stated is false: the failure path performs no cache write, so the
first failed fetch for a workspace creates no cache entry.  Concretely, a
non-stale failure (it is applied: the displayed error becomes the message)
for workspace w with an empty cache leaves the cache without an entry
for w. -/
theorem claim_C4_counterexample :
    cacheGet (applyFailure 1 "w" "boom"
        (⟨emptyStatus, 1, some "w", []⟩ : HookState)).cache "w" = none
      ∧ (applyFailure 1 "w" "boom"
          (⟨emptyStatus, 1, some "w", []⟩ : HookState)).status.error = some "boom" := by
  decide

/-- C4 amended: a cache entry is created or updated in place on every
non-stale successful fetch (holding the freshly built snapshot), while the
failure path never writes the cache at all. -/
theorem claim_C4_cache_writes
    (s : HookState) (requestId : Nat) (workspaceId : String)
    (data : RawStatus) (message : String)
    (h1 : s.requestId = requestId) (h2 : s.workspaceIdRef = some workspaceId) :
    cacheGet (applySuccess requestId workspaceId data s).cache workspaceId
        = some (successSnapshot data (cacheGet s.cache workspaceId))
      ∧ (applyFailure requestId workspaceId message s).cache = s.cache := by
  have hcond : ¬(s.requestId ≠ requestId ∨ s.workspaceIdRef ≠ some workspaceId) := by
    push_neg
    exact ⟨h1, h2⟩
  constructor
  · unfold applySuccess
    rw [if_neg hcond]
    simp [cacheGet_cacheSet]
  · unfold applyFailure
    split <;> rfl

/-- Witness for C4's amended statement: the first non-stale successful fetch
for workspace w with an empty cache creates w's entry; a failure writes
nothing. -/
theorem claim_C4_cache_writes_witness :
    cacheGet (applySuccess 1 "w" ⟨some "main", [], [], [], 0, 0⟩
        (⟨emptyStatus, 1, some "w", []⟩ : HookState)).cache "w"
        = some (successSnapshot ⟨some "main", [], [], [], 0, 0⟩ (cacheGet [] "w"))
      ∧ (applyFailure 1 "w" "boom"
          (⟨emptyStatus, 1, some "w", []⟩ : HookState)).cache = [] :=
  claim_C4_cache_writes _ 1 "w" _ "boom" rfl rfl

/-- C3: a successful fetch whose incoming branch name trims to empty or to
the sentinel "unknown" (or is absent) resolves to the cached branch name
whenever the cached entry holds a known (trimmed non-empty, non-"unknown")
value, and passes the incoming value through unchanged when no cached known
value exists.  Cached branch names are themselves stored trimmed (C10), so
the trimmed cached value below is the cached value on every reachable
state. -/
theorem claim_C3_sticky_branch_name
    (incoming : Option String) (cached : Option GitStatusState)
    (h : (incoming.map trimString).getD "" = ""
          ∨ (incoming.map trimString).getD "" = "unknown") :
    (∀ c, cached = some c →
        trimString c.branchName ≠ "" → trimString c.branchName ≠ "unknown" →
        resolveBranchName incoming cached = trimString c.branchName)
      ∧ ((∀ c, cached = some c →
            trimString c.branchName = "" ∨ trimString c.branchName = "unknown") →
          resolveBranchName incoming cached = (incoming.map trimString).getD "") := by
  constructor
  · rintro c rfl hne hnu
    rcases incoming with _ | t
    · simp [resolveBranchName, hne, hnu]
    · rcases h with h | h <;>
        simp only [Option.map_some', Option.getD_some] at h <;>
        simp [resolveBranchName, h, hne, hnu]
  · intro hcache
    rcases incoming with _ | t
    · rcases cached with _ | c
      · simp [resolveBranchName]
      · rcases hcache c rfl with hcb | hcb <;> simp [resolveBranchName, hcb]
    · rcases h with h | h <;>
        simp only [Option.map_some', Option.getD_some] at h <;>
        rcases cached with _ | c
      · simp [resolveBranchName, h]
      · rcases hcache c rfl with hcb | hcb <;> simp [resolveBranchName, h, hcb]
      · simp [resolveBranchName, h]
      · rcases hcache c rfl with hcb | hcb <;> simp [resolveBranchName, h, hcb]

/-- Witness for C3: with a cached branch "main" an incoming empty branch
resolves to "main"; with no cached entry the empty incoming value passes
through. -/
theorem claim_C3_sticky_branch_name_witness :
    resolveBranchName (some "") (some cachedSample) = trimString cachedSample.branchName
      ∧ resolveBranchName (some "") none
          = (((some "") : Option String).map trimString).getD "" :=
  ⟨(claim_C3_sticky_branch_name (some "") (some cachedSample)
      (Or.inl (by decide))).1 cachedSample rfl (by decide) (by decide),
   (claim_C3_sticky_branch_name (some "") none (Or.inl (by decide))).2
      (by rintro c hc; cases hc)⟩

/-- C5: a non-stale failed fetch for a workspace with a cached entry
displays exactly that cached entry with only `error` changed to the failure
message; branch name, the three file lists and both totals are preserved
unchanged. -/
theorem claim_C5_failure_preserves_cached_fields
    (s : HookState) (requestId : Nat) (workspaceId : String) (message : String)
    (c : GitStatusState)
    (h1 : s.requestId = requestId) (h2 : s.workspaceIdRef = some workspaceId)
    (h3 : cacheGet s.cache workspaceId = some c) :
    (applyFailure requestId workspaceId message s).status
      = { branchName := c.branchName
          files := c.files
          stagedFiles := c.stagedFiles
          unstagedFiles := c.unstagedFiles
          totalAdditions := c.totalAdditions
          totalDeletions := c.totalDeletions
          error := some message } := by
  have hcond : ¬(s.requestId ≠ requestId ∨ s.workspaceIdRef ≠ some workspaceId) := by
    push_neg
    exact ⟨h1, h2⟩
  unfold applyFailure
  rw [if_neg hcond]
  simp only [h3, nextDisplayed_eq, failureSnapshot]

/-- Witness for C5 at the spec's example: a cached snapshot with one
modified file and totals 3/1 survives a "network down" failure with only the
error field changed. -/
theorem claim_C5_failure_preserves_cached_fields_witness :
    (applyFailure 2 "w" "network down" stateSample).status
      = { branchName := cachedSample.branchName
          files := cachedSample.files
          stagedFiles := cachedSample.stagedFiles
          unstagedFiles := cachedSample.unstagedFiles
          totalAdditions := cachedSample.totalAdditions
          totalDeletions := cachedSample.totalDeletions
          error := some "network down" } :=
  claim_C5_failure_preserves_cached_fields stateSample 2 "w" "network down" cachedSample
    rfl rfl (by decide)

/-- C6: a non-stale failed fetch for a workspace without a cached entry
displays the empty default except for `branchName = "unknown"` and the
failure message in `error`. -/
theorem claim_C6_failure_empty_cache
    (s : HookState) (requestId : Nat) (workspaceId : String) (message : String)
    (h1 : s.requestId = requestId) (h2 : s.workspaceIdRef = some workspaceId)
    (h3 : cacheGet s.cache workspaceId = none) :
    (applyFailure requestId workspaceId message s).status
      = { branchName := "unknown"
          files := []
          stagedFiles := []
          unstagedFiles := []
          totalAdditions := 0
          totalDeletions := 0
          error := some message } := by
  have hcond : ¬(s.requestId ≠ requestId ∨ s.workspaceIdRef ≠ some workspaceId) := by
    push_neg
    exact ⟨h1, h2⟩
  unfold applyFailure
  rw [if_neg hcond]
  simp only [h3, nextDisplayed_eq, failureSnapshot, emptyStatus]

/-- Witness for C6 at the spec's example: a "timeout" failure with an empty
cache yields the empty default with branch "unknown" and the message. -/
theorem claim_C6_failure_empty_cache_witness :
    (applyFailure 1 "w" "timeout" (⟨emptyStatus, 1, some "w", []⟩ : HookState)).status
      = { branchName := "unknown"
          files := []
          stagedFiles := []
          unstagedFiles := []
          totalAdditions := 0
          totalDeletions := 0
          error := some "timeout" } :=
  claim_C6_failure_empty_cache _ 1 "w" "timeout" rfl rfl rfl

/-- List equality of file lists is exactly the ordered-sequence comparison:
same length and, at each index, equal `path`, `status`, `additions` and
`deletions`. -/
theorem fileList_eq_iff (xs ys : List GitFileStatus) :
    xs = ys
      ↔ (xs.length = ys.length
          ∧ ∀ i x y, xs.get? i = some x → ys.get? i = some y →
              x.path = y.path ∧ x.status = y.status
                ∧ x.additions = y.additions ∧ x.deletions = y.deletions) := by
  induction xs generalizing ys with
  | nil =>
      cases ys with
      | nil => simp
      | cons y ys => simp
  | cons x xs ih =>
      cases ys with
      | nil => simp
      | cons y ys =>
          constructor
          · intro hh
            injection hh with h1 h2
            subst h1
            subst h2
            exact ⟨rfl, fun i a b ha hb => by
              rw [ha] at hb
              cases hb
              exact ⟨rfl, rfl, rfl, rfl⟩⟩
          · rintro ⟨hlen, hpt⟩
            have hxy : x = y := by
              have h0 := hpt 0 x y rfl rfl
              cases x
              cases y
              simp_all
            have hrest : xs = ys := (ih ys).mpr
              ⟨by simpa using hlen,
               fun i a b ha hb => hpt (i + 1) a b (by simpa using ha) (by simpa using hb)⟩
            rw [hxy, hrest]

/-- C7: the render-suppression predicate holds exactly when branch name,
error and both totals are equal and the three file lists are pairwise equal
as ordered sequences (same length, equal `path`, `status`, `additions`,
`deletions` at each index); it depends only on values, so independently
constructed equal snapshots compare equal, and a new snapshot equal under
the predicate to the displayed one leaves the displayed value in place. -/
theorem claim_C7_equality_predicate :
    (∀ a b : GitStatusState,
        sameStatusState a b = true
          ↔ (a.branchName = b.branchName ∧ a.error = b.error
              ∧ a.totalAdditions = b.totalAdditions ∧ a.totalDeletions = b.totalDeletions
              ∧ a.files = b.files ∧ a.stagedFiles = b.stagedFiles
              ∧ a.unstagedFiles = b.unstagedFiles))
      ∧ (∀ xs ys : List GitFileStatus,
          sameFileStatusLists xs ys = true
            ↔ (xs.length = ys.length
                ∧ ∀ i x y, xs.get? i = some x → ys.get? i = some y →
                    x.path = y.path ∧ x.status = y.status
                      ∧ x.additions = y.additions ∧ x.deletions = y.deletions))
      ∧ (∀ a b : GitStatusState, a = b → sameStatusState a b = true)
      ∧ (∀ prev next : GitStatusState,
          sameStatusState prev next = true → nextDisplayed prev next = prev) := by
  refine ⟨?_, ?_, ?_, ?_⟩
  · intro a b
    rw [sameStatusState_iff]
    cases a
    cases b
    simp only [GitStatusState.mk.injEq]
    tauto
  · intro xs ys
    rw [sameFileStatusLists_iff, fileList_eq_iff]
  · intro a b hab
    rw [sameStatusState_iff]
    exact hab
  · intro prev next hsame
    unfold nextDisplayed
    rw [if_pos hsame]

/-- Witness for C7: two copies of the sample snapshot compare equal and the
displayed value is kept. -/
theorem claim_C7_equality_predicate_witness :
    sameStatusState cachedSample cachedSample = true
      ∧ nextDisplayed cachedSample cachedSample = cachedSample :=
  ⟨claim_C7_equality_predicate.2.2.1 cachedSample cachedSample rfl,
   claim_C7_equality_predicate.2.2.2 cachedSample cachedSample (by decide)⟩

/-- C8: every fetch outcome is consumed by a total handler; a non-stale
failure is converted into a displayed status carrying the failure message,
and polling survives it: a subsequent refresh on the resulting state still
issues a fresh request with the next request number. -/
theorem claim_C8_failures_recovered
    (s : HookState) (requestId : Nat) (workspaceId : String) (message : String)
    (h1 : s.requestId = requestId) (h2 : s.workspaceIdRef = some workspaceId) :
    (applyOutcome requestId workspaceId (Except.error message) s).status.error = some message
      ∧ ∀ wid,
          (refreshStart (some wid)
              (applyOutcome requestId workspaceId (Except.error message) s)).snd
            = some (s.requestId + 1, wid) := by
  have hcond : ¬(s.requestId ≠ requestId ∨ s.workspaceIdRef ≠ some workspaceId) := by
    push_neg
    exact ⟨h1, h2⟩
  have hreq : (applyFailure requestId workspaceId message s).requestId = s.requestId := by
    unfold applyFailure
    split <;> rfl
  constructor
  · simp only [applyOutcome]
    unfold applyFailure
    rw [if_neg hcond]
    simp only [nextDisplayed_eq]
    cases cacheGet s.cache workspaceId <;> simp [failureSnapshot, emptyStatus]
  · intro wid
    simp only [applyOutcome] at hreq ⊢
    simp [refreshStart, hreq]

/-- Witness for C8 at a concrete failure on the sample state. -/
theorem claim_C8_failures_recovered_witness :
    (applyOutcome 2 "w" (Except.error "boom") stateSample).status.error = some "boom"
      ∧ (refreshStart (some "w")
          (applyOutcome 2 "w" (Except.error "boom") stateSample)).snd
        = some (stateSample.requestId + 1, "w") :=
  ⟨(claim_C8_failures_recovered stateSample 2 "w" "boom" rfl rfl).1,
   (claim_C8_failures_recovered stateSample 2 "w" "boom" rfl rfl).2 "w"⟩

/-- C9: assuming every cached snapshot has a null error, each operation
preserves that: the success path writes only error-free snapshots, while the
failure path, workspace changes and refresh never write the cache, and
switching to a workspace redisplays its cached snapshot without an error
annotation. -/
theorem claim_C9_cache_error_free
    (s : HookState)
    (h : ∀ k v, cacheGet s.cache k = some v → v.error = none) :
    (∀ requestId workspaceId data k v,
        cacheGet (applySuccess requestId workspaceId data s).cache k = some v →
          v.error = none)
      ∧ (∀ requestId workspaceId message,
          (applyFailure requestId workspaceId message s).cache = s.cache)
      ∧ (∀ wsid, (handleWorkspaceChange wsid s).cache = s.cache)
      ∧ (∀ wsid, (refreshStart wsid s).fst.cache = s.cache)
      ∧ (∀ w, s.workspaceIdRef ≠ some w →
          (handleWorkspaceChange (some w) s).status.error = none) := by
  refine ⟨?_, ?_, ?_, ?_, ?_⟩
  · intro requestId workspaceId data k v hkv
    unfold applySuccess at hkv
    by_cases hcond : s.requestId ≠ requestId ∨ s.workspaceIdRef ≠ some workspaceId
    · rw [if_pos hcond] at hkv
      exact h k v hkv
    · rw [if_neg hcond] at hkv
      simp only [cacheGet_cacheSet] at hkv
      by_cases hk : workspaceId = k
      · rw [if_pos hk] at hkv
        cases hkv
        rfl
      · rw [if_neg hk] at hkv
        exact h k v hkv
  · intro requestId workspaceId message
    unfold applyFailure
    split <;> rfl
  · intro wsid
    unfold handleWorkspaceChange
    split
    · rfl
    · cases wsid <;> rfl
  · intro wsid
    cases wsid <;> rfl
  · intro w hne
    unfold handleWorkspaceChange
    rw [if_neg hne]
    simp only
    cases hc : cacheGet s.cache w with
    | none => rfl
    | some v => simpa [hc] using h w v hc

/-- Witness for C9 on the state with an empty cache (which trivially
satisfies the invariant). -/
theorem claim_C9_cache_error_free_witness :
    (∀ requestId workspaceId data k v,
        cacheGet (applySuccess requestId workspaceId data
            (⟨emptyStatus, 1, some "w", []⟩ : HookState)).cache k = some v →
          v.error = none)
      ∧ (∀ requestId workspaceId message,
          (applyFailure requestId workspaceId message
              (⟨emptyStatus, 1, some "w", []⟩ : HookState)).cache
            = (⟨emptyStatus, 1, some "w", []⟩ : HookState).cache)
      ∧ (∀ wsid, (handleWorkspaceChange wsid (⟨emptyStatus, 1, some "w", []⟩ : HookState)).cache
          = (⟨emptyStatus, 1, some "w", []⟩ : HookState).cache)
      ∧ (∀ wsid, (refreshStart wsid (⟨emptyStatus, 1, some "w", []⟩ : HookState)).fst.cache
          = (⟨emptyStatus, 1, some "w", []⟩ : HookState).cache)
      ∧ (∀ w, (⟨emptyStatus, 1, some "w", []⟩ : HookState).workspaceIdRef ≠ some w →
          (handleWorkspaceChange (some w)
              (⟨emptyStatus, 1, some "w", []⟩ : HookState)).status.error
            = none) :=
  claim_C9_cache_error_free _ (fun _ _ hkv => nomatch hkv)

/-- C10: the resolved branch name is always the trimmed incoming value, the
trimmed cached value, or the empty string, and a non-stale successful fetch
displays and caches exactly that resolved value. -/
theorem claim_C10_branch_resolved_trimmed
    (incoming : Option String) (cached : Option GitStatusState) :
    ((∃ t, incoming = some t ∧ resolveBranchName incoming cached = trimString t)
        ∨ (∃ c, cached = some c
            ∧ resolveBranchName incoming cached = trimString c.branchName)
        ∨ resolveBranchName incoming cached = "")
      ∧ ∀ (requestId : Nat) (workspaceId : String) (data : RawStatus) (s : HookState),
          s.requestId = requestId → s.workspaceIdRef = some workspaceId →
            (applySuccess requestId workspaceId data s).status.branchName
                = resolveBranchName data.branchName (cacheGet s.cache workspaceId)
              ∧ cacheGet (applySuccess requestId workspaceId data s).cache workspaceId
                = some (successSnapshot data (cacheGet s.cache workspaceId)) := by
  constructor
  · rcases incoming with _ | t
    · rcases cached with _ | c
      · right; right; rfl
      · by_cases hcb : (trimString c.branchName != ""
            && trimString c.branchName != "unknown") = true
        · right
          left
          exact ⟨c, rfl, by simp [resolveBranchName, hcb]⟩
        · right
          right
          rw [Bool.not_eq_true] at hcb
          simp [resolveBranchName, hcb]
    · by_cases ht : (trimString t != "" && trimString t != "unknown") = true
      · left
        exact ⟨t, rfl, by simp [resolveBranchName, ht]⟩
      · rw [Bool.not_eq_true] at ht
        rcases cached with _ | c
        · left
          exact ⟨t, rfl, by simp [resolveBranchName, ht]⟩
        · by_cases hcb : (trimString c.branchName != ""
              && trimString c.branchName != "unknown") = true
          · right
            left
            exact ⟨c, rfl, by simp [resolveBranchName, ht, hcb]⟩
          · left
            rw [Bool.not_eq_true] at hcb
            exact ⟨t, rfl, by simp [resolveBranchName, ht, hcb]⟩
  · intro requestId workspaceId data s h1 h2
    have hcond : ¬(s.requestId ≠ requestId ∨ s.workspaceIdRef ≠ some workspaceId) := by
      push_neg
      exact ⟨h1, h2⟩
    unfold applySuccess
    rw [if_neg hcond]
    constructor
    · simp [nextDisplayed_eq, successSnapshot]
    · simp [cacheGet_cacheSet]

/-- Witness for C10: a non-stale success with a whitespace-padded incoming
branch displays and caches the resolved snapshot. -/
theorem claim_C10_branch_resolved_trimmed_witness :
    (applySuccess 2 "w" rawSample stateSample).status.branchName
        = resolveBranchName rawSample.branchName (cacheGet stateSample.cache "w")
      ∧ cacheGet (applySuccess 2 "w" rawSample stateSample).cache "w"
        = some (successSnapshot rawSample (cacheGet stateSample.cache "w")) :=
  (claim_C10_branch_resolved_trimmed none none).2 2 "w" rawSample stateSample rfl rfl
